import Mathlib

/-!
Verification of the threat-intelligence analysis pipeline in `analyze.py`
(tweet aggregation → GPT prompt → structured-response parsing → Mattermost
alert rendering → run-record persistence).

Python strings are modelled as Lean `String` (or `List Char` where
character-level operations such as `str.strip` and code-fence removal are
involved).  Python dictionaries coming from untrusted JSON are modelled as
structures with `Option` fields (a missing key is `none`); `dict.get(k, d)`
becomes `Option.getD`.  The file system, the LLM HTTP boundary and
`json.loads` are external collaborators and appear as explicit parameters:
a directory listing function, an `LLMOutcome` value, and a
`parseJson : List Char → Option Analysis` function.  `requests` exceptions
(timeout / connection error) are the `transportError` outcome; an exception
inside the `try` block of `analyze_with_gpt` is modelled by the `Option`
result of the fence-stripping / parsing steps.
-/

/-! ## Python string primitives (on `List Char`) -/

/-- Leading-whitespace strip, the front half of Python `str.strip()`. -/
def stripL (l : List Char) : List Char := l.dropWhile Char.isWhitespace

/-- Trailing-whitespace strip, the back half of Python `str.strip()`. -/
def stripR (l : List Char) : List Char := (l.reverse.dropWhile Char.isWhitespace).reverse

/-- Python `str.strip()`: remove whitespace from both ends. -/
def pyStrip (l : List Char) : List Char := stripL (stripR l)

/-- Python `str.strip()` on `String`. -/
def pyStripStr (s : String) : String := String.mk (pyStrip s.data)

/-- Bool test that `pat` is an initial segment of `l` (Python `startswith`). -/
def hasPre : List Char → List Char → Bool
  | [], _ => true
  | _ :: _, [] => false
  | p :: ps, x :: xs => p = x && hasPre ps xs

/-- Bool test that `pat` is a final segment of `l` (Python `endswith`). -/
def hasSuf (pat l : List Char) : Bool := hasPre pat.reverse l.reverse

/-- Python `s.split(c, 1)[1]`: everything after the first occurrence of the
character `c`; `none` models the `IndexError` raised when `c` is absent. -/
def afterChar (c : Char) : List Char → Option (List Char)
  | [] => none
  | x :: xs => if x = c then some xs else afterChar c xs

/-- Everything after the first occurrence of the pattern `pat`;
`none` when `pat` does not occur. -/
def afterFirst (pat : List Char) : List Char → Option (List Char)
  | [] => if hasPre pat [] then some [] else none
  | x :: xs => if hasPre pat (x :: xs) then some (List.drop pat.length (x :: xs)) else afterFirst pat xs

/-- Python `s.rsplit(pat, 1)[0]`: the part before the last occurrence of
`pat`; the whole string when `pat` does not occur. -/
def beforeLast (pat l : List Char) : List Char :=
  match afterFirst pat.reverse l.reverse with
  | some r => r.reverse
  | none => l

/-- Python `s.split(",")` (single-character separator). -/
def splitComma : List Char → List (List Char)
  | [] => [[]]
  | c :: rest =>
    match splitComma rest with
    | [] => [[]]
    | g :: gs => if c = ',' then [] :: g :: gs else (c :: g) :: gs

/-- Python string `<` (lexicographic by code point, a proper prefix is
smaller). -/
def lexLt : List Char → List Char → Bool
  | [], [] => false
  | [], _ :: _ => true
  | _ :: _, [] => false
  | a :: as, b :: bs => if a < b then true else if b < a then false else lexLt as bs

/-- Python string `<=`. -/
def lexLe (a b : List Char) : Bool := !(lexLt b a)

/-- Python truthiness of an optional environment string: `None` and `""` are
falsy (`os.getenv` result used as `if not X`). -/
def envTruthy : Option String → Bool
  | none => false
  | some s => !s.isEmpty

/-- `TARGETS = os.getenv("TARGETS", "").split(",")`. -/
def pyTargets (env : Option String) : List String :=
  (splitComma (env.getD "").data).map (fun l => String.mk l)

/-! ## Data model -/

/-- One post object from a collection file (`analyze.py` reads keys `text`,
`user.username`, `date`, `link`; the loader adds `_keyword`).  A missing key
is `none`; `username` stands for the nested `tweet.get("user", {}).get("username", "unknown")`
access. -/
structure Tweet where
  text : Option String
  username : Option String
  date : Option String
  link : Option String
  keyword : Option String
deriving DecidableEq, Repr

/-- One entry of the `details` array of the model response.  The prompt asks
for key `issue_type`, but the renderer reads `threat_type`; both possible
keys are modelled. -/
structure Finding where
  tweet_index : Option Int
  company : Option String
  issue_type : Option String
  threat_type : Option String
  severity : Option String
  summary : Option String
deriving DecidableEq, Repr

/-- The parsed analysis dictionary (`AnalysisResult`). -/
structure Analysis where
  relevant : Option Bool
  confidence : Option String
  issue_type : Option String
  summary : Option String
  details : Option (List Finding)
deriving DecidableEq, Repr

/-- The fallback `{"relevant": False, "summary": "", "details": []}` returned
by `analyze_with_gpt` on every error path. -/
def defaultAnalysis : Analysis :=
  { relevant := some false, confidence := none, issue_type := none,
    summary := some "", details := some [] }

/-- What reading and JSON-parsing one collection file yields:
`malformed` models an unreadable file or a `json.load` error (the
`except` branch of the loader); `ok tweets` is a parsed document whose
`tweets` key holds the given list (`none` when the key is absent, in which
case `data.get("tweets", [])` yields `[]`). -/
inductive FileContent where
  | malformed
  | ok (tweets : Option (List Tweet))
deriving DecidableEq, Repr

/-- One `*.json` file of a target directory: its file name and content. -/
structure FileEntry where
  name : String
  content : FileContent
deriving DecidableEq, Repr

/-- The file system seen by the loader: for a target name, `none` when
`DATA_DIR/target` does not exist, otherwise the `*.json` entries the glob
finds there. -/
structure FS where
  dirs : String → Option (List FileEntry)

/-- Outcome of the `requests.post` call to the LLM service:
a transport failure (timeout / connection error), or an HTTP response with
a status code and the extracted `choices[0].message.content` text. -/
inductive LLMOutcome where
  | transportError
  | httpResponse (status : Nat) (content : List Char)
deriving DecidableEq

/-- The persisted run record (`_analysis_<ts>.json`): timestamp key,
`tweet_count`, and the full analysis. -/
structure RunRecord where
  timestamp : String
  tweet_count : Nat
  analysis : Analysis
deriving DecidableEq, Repr

/-- Observable outcome of one `main()` run: the process exit status, whether
the LLM request was issued, whether a webhook POST was attempted, and the
persisted record (if any). -/
structure MainResult where
  exitCode : Nat
  llmCalled : Bool
  webhookAttempted : Bool
  record : Option RunRecord
deriving DecidableEq, Repr

/-! ## Tweet Loader (`load_latest_tweets`, analyze.py lines 34-63) -/

/-- Descending insertion of a file entry by name, Python string order. -/
def insertByNameDesc (e : FileEntry) : List FileEntry → List FileEntry
  | [] => [e]
  | f :: fs => if lexLt f.name.data e.name.data then e :: f :: fs else f :: insertByNameDesc e fs

/-- `sorted(target_dir.glob("*.json"), reverse=True)`: stable descending sort
of the directory entries by file name (all entries share the directory
prefix, so path order is file-name order). -/
def sortByNameDesc : List FileEntry → List FileEntry
  | [] => []
  | e :: es => insertByNameDesc e (sortByNameDesc es)

/-- `tweet["_keyword"] = target`. -/
def tagTweet (target : String) (tw : Tweet) : Tweet := { tw with keyword := some target }

/-- Reading the selected latest file of one target: a malformed file is
logged and contributes nothing; otherwise `data.get("tweets", [])` is tagged
with the target. -/
def readLatestFile (target : String) (e : FileEntry) : List Tweet :=
  match e.content with
  | .malformed => []
  | .ok tweets => (tweets.getD []).map (tagTweet target)

/-- The loop body of `load_latest_tweets` for one configured target:
strip the name, skip empty names, skip a missing directory, pick the file
sorting last in descending order, read it. -/
def processTarget (fs : FS) (rawTarget : String) : List Tweet :=
  let target := pyStripStr rawTarget
  if target.isEmpty then []
  else
    match fs.dirs target with
    | none => []
    | some files =>
      match sortByNameDesc files with
      | [] => []
      | latest :: _ => readLatestFile target latest

/-- `load_latest_tweets()`: accumulate the per-target results with
`all_tweets.extend(...)` in target iteration order. -/
def load_latest_tweets (fs : FS) (targets : List String) : List Tweet :=
  targets.foldl (fun acc t => acc ++ processTarget fs t) []

/-! ## Prompt Builder (analyze.py lines 22-31 and 73-122) -/

/-- The `KOREAN_FINANCIAL_KEYWORDS` constant. -/
def KOREAN_FINANCIAL_KEYWORDS : String :=
  "\n- 은행: 국민은행, 신한은행, 하나은행, 우리은행, 농협, NH, IBK기업은행, SC제일은행, 케이뱅크, 카카오뱅크, 토스뱅크\n- 증권: 삼성증권, 미래에셋, 한국투자증권, NH투자증권, KB증권, 키움증권, 대신증권\n- 보험: 삼성생명, 삼성화재, 현대해상, DB손해보험, 한화생명, 교보생명, 메리츠화재\n- 카드: 삼성카드, 신한카드, 현대카드, 롯데카드, 하나카드, 우리카드, BC카드\n- 핀테크: 카카오페이, 네이버페이, 토스, 페이코, 쿠팡페이\n- 기관: 금융감독원, 금융위원회, 한국은행, 예금보험공사, 금융결제원, 코스콤\n- 거래소: 업비트, 빗썸, 코인원, 코빗\n- 일반: 한국, Korea, KR, .kr, Korean bank, Korean financial\n"

/-- One block of the prompt:
`f"[{i+1}] @{user} ({date}) [키워드: {keyword}]\n{text}\n링크: {link}"`
with the `dict.get` defaults of analyze.py lines 75-79. -/
def tweetLine (i : Nat) (tw : Tweet) : String :=
  "[" ++ toString (i + 1) ++ "] @" ++ tw.username.getD "unknown" ++ " (" ++ tw.date.getD "" ++
    ") [키워드: " ++ tw.keyword.getD "" ++ "]\n" ++ tw.text.getD "" ++ "\n링크: " ++ tw.link.getD ""

/-- `for i, tweet in enumerate(...)` starting at index `i`. -/
def tweetTextsAux (i : Nat) : List Tweet → List String
  | [] => []
  | tw :: rest => tweetLine i tw :: tweetTextsAux (i + 1) rest

/-- The `tweet_texts` list: at most the first 30 posts, each rendered by
`tweetLine` with its 0-based enumeration index. -/
def tweetTexts (tweets : List Tweet) : List String :=
  tweetTextsAux 0 (tweets.take 30)

/-- `tweets_content = "\n---\n".join(tweet_texts)`. -/
def tweetsContent (tweets : List Tweet) : String :=
  String.intercalate "\n---\n" (tweetTexts tweets)

/-- The instruction text of the prompt before the keyword list. -/
def promptHead : String :=
  "당신은 사이버 위협 인텔리전스 및 금융 서비스 모니터링 분석가입니다.\n\n아래 트윗들을 분석하여 **한국 금융회사/금융기관**과 관련된 다음 상황이 있는지 판단하세요:\n1. 사이버 공격 (DDoS, 랜섬웨어, 데이터 유출 등)\n2. 서비스 장애 (앱 오류, 접속 불가, 결제 장애, 송금 안됨 등)\n3. 보안 사고 (해킹, 정보 유출 등)\n\n## 중요 판단 기준:\n- 트윗에서 한국 금융회사/서비스가 **직접 언급**되거나 **명확히 추론 가능**해야 함\n- 단순히 \"결제 안됨\"만 있고 어떤 서비스인지 불명확하면 제외\n- 게임 결제, 해외 서비스, 쇼핑몰 자체 오류 등은 제외\n- **여러 사람이 동시에 같은 금융사 문제를 언급**하면 실제 장애 가능성 높음\n\n## 한국 금융 관련 키워드 참고:\n"

/-- The prompt text between the keyword list and the tweet blocks. -/
def promptMid : String := "\n\n## 분석할 트윗들:\n"

/-- The prompt tail: the expected JSON response shape (note the details
entries are specified with key `issue_type`) and the final instructions. -/
def promptTail : String :=
  "\n\n## 응답 형식 (JSON):\n\x7b\n    \"relevant\": true/false,  // 한국 금융회사 관련 이슈가 있으면 true\n    \"confidence\": \"high/medium/low\",  // 확신도\n    \"issue_type\": \"cyber_attack/service_outage/security_incident/none\",\n    \"summary\": \"한국어로 2-3문장 요약 (관련 없으면 빈 문자열)\",\n    \"details\": [\n        \x7b\n            \"tweet_index\": 1,\n            \"company\": \"관련 회사/기관명 (예: 카카오뱅크, 토스, 신한카드)\",\n            \"issue_type\": \"이슈 유형 (DDoS, 앱장애, 결제오류, 데이터유출 등)\",\n            \"severity\": \"high/medium/low\",\n            \"summary\": \"해당 트윗 요약\"\n        \x7d\n    ]\n\x7d\n\n한국 금융회사와 직접적인 관련이 없거나 불명확하면 relevant: false로 응답하세요.\n반드시 유효한 JSON만 출력하세요.\n"

/-- The full user prompt assembled by `analyze_with_gpt`. -/
def buildPrompt (tweets : List Tweet) : String :=
  promptHead ++ KOREAN_FINANCIAL_KEYWORDS ++ promptMid ++ tweetsContent tweets ++ promptTail

/-! ## Analysis Client (analyze.py lines 66-161) -/

/-- The code-fence marker. -/
def fenceMarker : List Char := ("```").data

/-- A payload wrapped in markdown code fencing with a leading language tag,
as LLMs sometimes emit despite instructions. -/
def fenceWrapJson (p : List Char) : List Char :=
  ("```json\n").data ++ p ++ ("\n```").data

/-- The response post-processing of analyze.py lines 150-157:
strip; when the text starts with a fence marker, drop the first line
(`split("\n", 1)[1]`, `none` models the IndexError when there is no
newline); when it then ends with a fence marker, drop from the last marker
(`rsplit("```", 1)[0]`); strip again.  The result is what `json.loads`
receives. -/
def stripFence (content : List Char) : Option (List Char) :=
  let c := pyStrip content
  match (if hasPre fenceMarker c then afterChar '\n' c else some c) with
  | none => none
  | some c1 =>
    let c2 := if hasSuf fenceMarker c1 then beforeLast fenceMarker c1 else c1
    some (pyStrip c2)

/-- `analyze_with_gpt`: empty input short-circuits to the default; a
transport failure or a non-200 status yields the default; otherwise the
content is fence-stripped and parsed, any failure (including the
fence-stripping IndexError) again yielding the default.  Every branch
returns a value: no exception escapes this boundary. -/
def analyze_with_gpt (tweets : List Tweet) (outcome : LLMOutcome)
    (parseJson : List Char → Option Analysis) : Analysis :=
  if tweets.isEmpty then defaultAnalysis
  else
    match outcome with
    | .transportError => defaultAnalysis
    | .httpResponse status content =>
      if status ≠ 200 then defaultAnalysis
      else
        match stripFence content with
        | none => defaultAnalysis
        | some s => (parseJson s).getD defaultAnalysis

/-! ## Alert Renderer (`send_mattermost`, analyze.py lines 164-220) -/

/-- One detail entry of the message: `idx = detail.get("tweet_index", 0)`;
rendered only when `idx > 0 and idx <= len(tweets)`, resolving
`tweets[idx - 1]`.  Note the renderer reads `detail.get("threat_type", "N/A")`. -/
def detailBlock (tweets : List Tweet) (d : Finding) : Option String :=
  let idx : Int := d.tweet_index.getD 0
  if 0 < idx ∧ idx ≤ (tweets.length : Int) then
    match tweets[(idx - 1).toNat]? with
    | some tw =>
      some ("**" ++ d.company.getD "N/A" ++ "** - " ++ d.threat_type.getD "N/A" ++ " (" ++
        d.severity.getD "N/A" ++ ")\n> " ++ d.summary.getD "" ++ "\n> [원본 보기](" ++
        tw.link.getD "#" ++ ")\n\n")
    | none => none
  else none

/-- The rendered detail blocks, in order: the loop
`for detail in details[:5]` appending one block per in-range index. -/
def renderDetails (analysis : Analysis) (tweets : List Tweet) : List String :=
  ((analysis.details.getD []).take 5).filterMap (detailBlock tweets)

/-- The full Mattermost message of `send_mattermost` (its pure part): header
table with detection time and confidence, summary, the detail section
(present whenever `details` is non-empty), and the GitHub footer. -/
def send_mattermost_message (analysis : Analysis) (tweets : List Tweet)
    (now : String) (repoEnv : Option String) : String :=
  let header := "### 🚨 한국 금융권 위협 감지\n\n| 항목 | 내용 |\n|------|------|\n| 탐지 시간 | " ++
    now ++ " |\n| 확신도 | " ++ analysis.confidence.getD "N/A" ++ " |\n\n#### 📋 요약\n" ++
    analysis.summary.getD "N/A" ++ "\n\n"
  let detailsSection :=
    if (analysis.details.getD []).isEmpty then ""
    else "#### 🔍 상세 내용\n\n" ++ String.join (renderDetails analysis tweets)
  header ++ detailsSection ++ "\n---\n[GitHub Issues](https://github.com/" ++
    repoEnv.getD "" ++ "/issues)"

/-! ## Pipeline Driver (`main`, analyze.py lines 223-267) -/

/-- Python truthiness of `analysis.get("relevant")`: a missing key is falsy. -/
def relevantTruthy (a : Analysis) : Bool := a.relevant.getD false

/-- `main()` (modelled as `mainRun`): missing/empty `OPENAI_API_KEY` exits cleanly at once; zero
loaded tweets exits cleanly without analysis or persistence; otherwise the
LLM is consulted, a webhook POST is attempted exactly when the result is
relevant and `MATTERMOST_WEBHOOK` is set, and one run record with the total
loaded count and the full analysis is always written. -/
def mainRun (apiKey webhook : Option String) (fs : FS) (targets : List String)
    (llm : LLMOutcome) (parseJson : List Char → Option Analysis) (now : String) : MainResult :=
  if !(envTruthy apiKey) then
    { exitCode := 0, llmCalled := false, webhookAttempted := false, record := none }
  else
    let tweets := load_latest_tweets fs targets
    if tweets.isEmpty then
      { exitCode := 0, llmCalled := false, webhookAttempted := false, record := none }
    else
      let analysis := analyze_with_gpt tweets llm parseJson
      { exitCode := 0, llmCalled := true,
        webhookAttempted := relevantTruthy analysis && envTruthy webhook,
        record := some { timestamp := now, tweet_count := tweets.length, analysis := analysis } }

/-! ## Concrete fixtures used by witnesses and counterexamples -/

/-- A file system with no target directories at all. -/
def fsEmpty : FS := ⟨fun _ => none⟩

/-- A sample collected post. -/
def sampleTweet : Tweet :=
  { text := some "카카오뱅크 앱 오류", username := some "user1", date := some "2025-01-01",
    link := some "https://x.com/p/1", keyword := none }

/-- One target directory with one well-formed collection file. -/
def fsOne : FS :=
  ⟨fun t => if t = "bank" then some [⟨"20250101.json", .ok (some [sampleTweet])⟩] else none⟩

/-- One target directory whose latest file holds 40 posts. -/
def fs40 : FS :=
  ⟨fun t => if t = "bank" then
      some [⟨"20250101.json", .ok (some (List.replicate 40 sampleTweet))⟩]
    else none⟩

/-- Three collection files; the lexicographically greatest name (20250103)
has the well-formed content, the oldest file is malformed. -/
def filesBank : List FileEntry :=
  [⟨"20250101.json", .malformed⟩,
   ⟨"20250103.json", .ok (some [sampleTweet])⟩,
   ⟨"20250102.json", .ok none⟩]

/-- One target directory holding the three files of `filesBank`. -/
def fs3 : FS := ⟨fun t => if t = "bank" then some filesBank else none⟩

/-- A model finding pointing at post 31. -/
def finding31 : Finding :=
  { tweet_index := some 31, company := some "토스", issue_type := some "DDoS",
    threat_type := none, severity := some "high", summary := some "디도스 공격 정황" }

/-- 31 loaded posts (one more than the 30-post analysis cap). -/
def tweets31 : List Tweet := List.replicate 31 sampleTweet

/-- An analysis whose only finding is `finding31`. -/
def analysis31 : Analysis :=
  { relevant := some true, confidence := some "high", issue_type := some "cyber_attack",
    summary := some "요약", details := some [finding31] }

/-- A finding carrying `issue_type` (the key the prompt schema specifies)
and no `threat_type` key. -/
def findingC8 : Finding :=
  { tweet_index := some 1, company := some "카카오뱅크", issue_type := some "DDoS",
    threat_type := none, severity := some "high", summary := some "디도스 공격 정황" }

/-- An analysis with the single finding `findingC8`. -/
def analysisC8 : Analysis :=
  { relevant := some true, confidence := some "high", issue_type := some "cyber_attack",
    summary := some "카카오뱅크 디도스", details := some [findingC8] }

/-! ## Helper lemmas -/

/-- Folding the loader loop from any accumulator appends the per-target
results in iteration order. -/
theorem load_foldl_eq (fs : FS) :
    ∀ (targets : List String) (acc : List Tweet),
      List.foldl (fun a t => a ++ processTarget fs t) acc targets =
        acc ++ (targets.map (processTarget fs)).flatten := by
  intro targets
  induction targets with
  | nil => intro acc; simp
  | cons t rest ih => intro acc; simp [List.foldl, ih, List.append_assoc]

/-- The loader output is the concatenation of the per-target results in
target iteration order. -/
theorem load_latest_tweets_eq_join (fs : FS) (targets : List String) :
    load_latest_tweets fs targets = (targets.map (processTarget fs)).flatten := by
  simpa using load_foldl_eq fs targets []

theorem tweetTextsAux_length : ∀ (l : List Tweet) (i : Nat),
    (tweetTextsAux i l).length = l.length := by
  intro l
  induction l with
  | nil => intro i; rfl
  | cons tw rest ih => intro i; simp [tweetTextsAux, ih]

theorem getElem?_tweetTextsAux : ∀ (l : List Tweet) (k i : Nat),
    (tweetTextsAux k l)[i]? = (l[i]?).map (fun tw => tweetLine (k + i) tw) := by
  intro l
  induction l with
  | nil => intro k i; simp [tweetTextsAux]
  | cons tw rest ih =>
    intro k i
    cases i with
    | zero => simp [tweetTextsAux]
    | succ j =>
      have harith : k + 1 + j = k + (j + 1) := by omega
      simp [tweetTextsAux, ih, harith]

/-! ## Claim theorems -/

/-- Claim C2: whenever the LLM interaction is not a successful well-formed
JSON response — a transport failure, a non-200 status, or a response whose
content fails fence stripping or JSON parsing — `analyze_with_gpt` returns
exactly the fallback `{relevant: false, summary: "", details: []}`; the
embedding is total, so no exception escapes the boundary. -/
theorem claim_C2 (tweets : List Tweet) (parseJson : List Char → Option Analysis)
    (outcome : LLMOutcome)
    (h : outcome = LLMOutcome.transportError ∨
      (∃ st c, outcome = LLMOutcome.httpResponse st c ∧ st ≠ 200) ∨
      (∃ c, outcome = LLMOutcome.httpResponse 200 c ∧ (stripFence c).bind parseJson = none)) :
    analyze_with_gpt tweets outcome parseJson = defaultAnalysis := by
  by_cases he : tweets.isEmpty
  · simp [analyze_with_gpt, he]
  · rcases h with h | ⟨st, c, rfl, hst⟩ | ⟨c, rfl, hp⟩
    · subst h; simp [analyze_with_gpt, he]
    · simp [analyze_with_gpt, he, hst]
    · simp only [analyze_with_gpt, he, if_false, Bool.false_eq_true, ne_eq,
        not_true_eq_false, if_neg]
      cases hsf : stripFence c with
      | none => simp
      | some s =>
        rw [hsf] at hp
        simp only [Option.some_bind] at hp
        simp [hp]

/-- Witness for C2 at a concrete input: a transport failure on an empty
batch yields the fallback analysis. -/
theorem claim_C2_witness :
    analyze_with_gpt [] LLMOutcome.transportError (fun _ => none) = defaultAnalysis :=
  claim_C2 [] (fun _ => none) LLMOutcome.transportError (Or.inl rfl)

/-- Claim C3: the prompt contains at most the first 30 posts (the prompt of
any input equals the prompt of its first-30 truncation), the block list has
length `min 30 n`, and block `i` (for `i < 30`) is exactly the fixed-format
rendering of post `i` — 1-based position, author handle, timestamp, origin
target, body text and permalink — in original order. -/
theorem claim_C3 (tweets : List Tweet) (i : Nat) :
    (tweetTexts tweets).length = min 30 tweets.length ∧
    buildPrompt tweets = buildPrompt (tweets.take 30) ∧
    (tweetTexts tweets)[i]? =
      (if i < 30 then (tweets[i]?).map (fun tw => tweetLine i tw) else none) := by
  refine ⟨?_, ?_, ?_⟩
  · simp [tweetTexts, tweetTextsAux_length, List.length_take]
  · simp [buildPrompt, tweetsContent, tweetTexts, List.take_take]
  · rw [tweetTexts, getElem?_tweetTextsAux, List.getElem?_take]
    split <;> simp

/-- Claim C5: a target whose directory is missing, whose directory has no
collection files, or whose selected latest file is malformed contributes
zero posts; inserting such a target anywhere leaves the other targets'
loaded posts unchanged; and the loader accumulates per-target results in
iteration order. -/
theorem claim_C5 (fs : FS) (rawTarget : String)
    (h : fs.dirs (pyStripStr rawTarget) = none ∨
      fs.dirs (pyStripStr rawTarget) = some [] ∨
      ∃ files e rest, fs.dirs (pyStripStr rawTarget) = some files ∧
        sortByNameDesc files = e :: rest ∧ e.content = FileContent.malformed) :
    processTarget fs rawTarget = [] ∧
    (∀ pre post, load_latest_tweets fs (pre ++ rawTarget :: post) =
      load_latest_tweets fs pre ++ load_latest_tweets fs post) ∧
    (∀ ts, load_latest_tweets fs ts = (ts.map (processTarget fs)).flatten) := by
  have hzero : processTarget fs rawTarget = [] := by
    by_cases hne : (pyStripStr rawTarget).isEmpty
    · simp [processTarget, hne]
    · rcases h with h1 | h1 | ⟨files, e, rest, h1, h2, h3⟩
      · simp [processTarget, hne, h1]
      · simp [processTarget, hne, h1, sortByNameDesc]
      · simp only [processTarget, hne, if_false, Bool.false_eq_true, h1, h2]
        unfold readLatestFile
        rw [h3]
  refine ⟨hzero, ?_, fun ts => load_latest_tweets_eq_join fs ts⟩
  intro pre post
  rw [load_latest_tweets_eq_join, load_latest_tweets_eq_join, load_latest_tweets_eq_join]
  simp [hzero]

/-- Witness for C5 at a concrete input: target name " ghost " (stripping to
a directory that does not exist) contributes nothing and does not disturb
the posts loaded for target "bank". -/
theorem claim_C5_witness :
    processTarget fsOne " ghost " = [] ∧
    load_latest_tweets fsOne (["bank"] ++ " ghost " :: ["bank"]) =
      load_latest_tweets fsOne ["bank"] ++ load_latest_tweets fsOne ["bank"] := by
  have h := claim_C5 fsOne " ghost " (Or.inl (by decide))
  exact ⟨h.1, h.2.1 ["bank"] ["bank"]⟩

/-- Claim C7: with the credential present and zero posts loaded, the run
terminates with exit status 0, never calls the LLM, never attempts a
webhook POST, and persists no run record. -/
theorem claim_C7 (apiKey webhook : Option String) (fs : FS) (targets : List String)
    (llm : LLMOutcome) (parseJson : List Char → Option Analysis) (now : String)
    (hkey : envTruthy apiKey = true) (hzero : load_latest_tweets fs targets = []) :
    mainRun apiKey webhook fs targets llm parseJson now =
      { exitCode := 0, llmCalled := false, webhookAttempted := false, record := none } := by
  simp [mainRun, hkey, hzero]

/-- Witness for C7 at a concrete input: key present, no data directories. -/
theorem claim_C7_witness :
    mainRun (some "sk-key") (some "https://mm.example/hook") fsEmpty ["bank"]
      LLMOutcome.transportError (fun _ => none) "2025-01-02T09:00:00" =
      { exitCode := 0, llmCalled := false, webhookAttempted := false, record := none } :=
  claim_C7 (some "sk-key") (some "https://mm.example/hook") fsEmpty ["bank"]
    LLMOutcome.transportError (fun _ => none) "2025-01-02T09:00:00" (by decide) (by decide)

/-- Claim C9: whenever the analysis stage is reached (credential present,
at least one post loaded), the run ends with exit 0, calls the LLM, and
persists exactly one record keyed by the timestamp, holding the TOTAL
loaded post count (not the 30-capped analysis subset size) and the full
analysis — also when `relevant` is false, in which case no webhook POST is
attempted. -/
theorem claim_C9 (apiKey webhook : Option String) (fs : FS) (targets : List String)
    (llm : LLMOutcome) (parseJson : List Char → Option Analysis) (now : String)
    (hkey : envTruthy apiKey = true) (hsome : load_latest_tweets fs targets ≠ []) :
    mainRun apiKey webhook fs targets llm parseJson now =
      { exitCode := 0, llmCalled := true,
        webhookAttempted :=
          relevantTruthy (analyze_with_gpt (load_latest_tweets fs targets) llm parseJson) &&
            envTruthy webhook,
        record := some
          { timestamp := now, tweet_count := (load_latest_tweets fs targets).length,
            analysis := analyze_with_gpt (load_latest_tweets fs targets) llm parseJson } } := by
  have he : (load_latest_tweets fs targets).isEmpty = false := by
    cases hl : load_latest_tweets fs targets with
    | nil => exact absurd hl hsome
    | cons a l => simp
  simp [mainRun, hkey, he]

/-- Witness for C9 at a concrete input: 40 posts loaded, the LLM request
times out, so the analysis is the non-relevant fallback; one record with
tweet_count 40 (not 30) is persisted and no webhook POST is attempted. -/
theorem claim_C9_witness :
    mainRun (some "sk-key") (some "https://mm.example/hook") fs40 ["bank"]
      LLMOutcome.transportError (fun _ => none) "2025-01-02T09:00:00" =
      { exitCode := 0, llmCalled := true, webhookAttempted := false,
        record := some { timestamp := "2025-01-02T09:00:00", tweet_count := 40,
                         analysis := defaultAnalysis } } := by
  have h := claim_C9 (some "sk-key") (some "https://mm.example/hook") fs40 ["bank"]
    LLMOutcome.transportError (fun _ => none) "2025-01-02T09:00:00" (by decide) (by decide)
  exact h.trans (by decide)

/-- Claim C10: when the TARGETS environment variable is unset or every
comma-separated entry trims to the empty string, the loader returns no
posts for any file system, and the pipeline ends in the clean-exit result
(no LLM call, no webhook attempt, no record). -/
theorem claim_C10 (env apiKey webhook : Option String) (fs : FS)
    (llm : LLMOutcome) (parseJson : List Char → Option Analysis) (now : String)
    (h : ∀ s ∈ pyTargets env, (pyStripStr s).isEmpty = true) :
    load_latest_tweets fs (pyTargets env) = [] ∧
    mainRun apiKey webhook fs (pyTargets env) llm parseJson now =
      { exitCode := 0, llmCalled := false, webhookAttempted := false, record := none } := by
  have hload : load_latest_tweets fs (pyTargets env) = [] := by
    rw [load_latest_tweets_eq_join]
    rw [List.flatten_eq_nil_iff]
    intro x hx
    rcases List.mem_map.mp hx with ⟨s, hs, rfl⟩
    simp [processTarget, h s hs]
  refine ⟨hload, ?_⟩
  by_cases hk : envTruthy apiKey = true
  · exact claim_C7 apiKey webhook fs (pyTargets env) llm parseJson now hk hload
  · simp [mainRun, hk]

/-- Claim C1 counterexample: with 31 posts loaded (more than the 30-post
analysis cap) and a Finding at tweet_index 31, the renderer — which `main`
calls with the FULL loaded list — does render that Finding, contradicting
the claim that an index beyond the analyzed subset length is omitted. -/
theorem claim_C1_counterexample :
    renderDetails analysis31 tweets31 =
      ["**토스** - N/A (high)\n> 디도스 공격 정황\n> [원본 보기](https://x.com/p/1)\n\n"] := by
  decide

/-- Claim C1 amended: a Finding is omitted from the rendered message
exactly when its tweet_index (default 0) is 0/negative or exceeds the
length of the tweet list GIVEN TO THE RENDERER — in `main` this is the full
loaded list, not the 30-capped analyzed subset; the rendered detail list is
the in-order filter of the first 5 findings by this bound. -/
theorem claim_C1_amended (tweets : List Tweet) (d : Finding)
    (h : d.tweet_index.getD 0 ≤ 0 ∨ (tweets.length : Int) < d.tweet_index.getD 0) :
    detailBlock tweets d = none ∧
    ∀ a : Analysis, renderDetails a tweets =
      ((a.details.getD []).take 5).filterMap (detailBlock tweets) := by
  refine ⟨?_, fun a => rfl⟩
  simp only [detailBlock]
  rw [if_neg (by omega)]

/-- Witness for the amended C1 at a concrete input: with exactly 30 posts a
Finding at tweet_index 31 yields no block. -/
theorem claim_C1_witness :
    detailBlock (List.replicate 30 sampleTweet) finding31 = none :=
  (claim_C1_amended (List.replicate 30 sampleTweet) finding31 (by decide)).1

/-- Claim C8 evaluated at the failing input: a Finding whose `issue_type`
is "DDoS" (the key the prompt schema requests) and which carries no
`threat_type` key renders with "N/A" in the issue-type slot, because
`send_mattermost` reads `detail.get("threat_type", "N/A")` — the code
contradicts its own response schema; company, severity, quoted summary and
the resolved post's permalink are rendered as claimed, and at most 5
entries are taken. -/
theorem claim_C8_render :
    renderDetails analysisC8 [sampleTweet] =
      ["**카카오뱅크** - N/A (high)\n> 디도스 공격 정황\n> [원본 보기](https://x.com/p/1)\n\n"] ∧
    findingC8.issue_type = some "DDoS" ∧ findingC8.threat_type = none := by
  decide

/-! ## Lexicographic order lemmas (for the latest-file selection) -/

theorem lexLt_irrefl : ∀ l : List Char, lexLt l l = false := by
  intro l
  induction l with
  | nil => rfl
  | cons c cs ih => simp [lexLt, lt_irrefl c, ih]

theorem lexLt_asymm : ∀ a b : List Char, lexLt a b = true → lexLt b a = false := by
  intro a
  induction a with
  | nil =>
    intro b h
    cases b with
    | nil => simp [lexLt] at h
    | cons y ys => simp [lexLt]
  | cons x xs ih =>
    intro b h
    cases b with
    | nil => simp [lexLt] at h
    | cons y ys =>
      simp only [lexLt] at h ⊢
      by_cases h1 : x < y
      · simp [h1, lt_asymm h1]
      · by_cases h2 : y < x
        · simp [h1, h2] at h
        · simp only [h1, h2, if_false] at h ⊢
          exact ih ys h

theorem lexLt_trans : ∀ a b c : List Char,
    lexLt a b = true → lexLt b c = true → lexLt a c = true := by
  intro a
  induction a with
  | nil =>
    intro b c hab hbc
    cases b with
    | nil => simp [lexLt] at hab
    | cons y ys =>
      cases c with
      | nil => simp [lexLt] at hbc
      | cons z zs => simp [lexLt]
  | cons x xs ih =>
    intro b c hab hbc
    cases b with
    | nil => simp [lexLt] at hab
    | cons y ys =>
      cases c with
      | nil => simp [lexLt] at hbc
      | cons z zs =>
        simp only [lexLt] at hab hbc ⊢
        by_cases h1 : x < y
        · by_cases h2 : y < z
          · simp [lt_trans h1 h2]
          · by_cases h3 : z < y
            · simp [h2, h3] at hbc
            · have hyz : y = z := le_antisymm (le_of_not_lt h3) (le_of_not_lt h2)
              subst hyz
              simp [h1]
        · by_cases h2 : y < x
          · simp [h1, h2] at hab
          · have hxy : x = y := le_antisymm (le_of_not_lt h2) (le_of_not_lt h1)
            subst hxy
            simp only [lt_irrefl x, if_false] at hab
            by_cases h3 : x < z
            · simp [h3]
            · by_cases h4 : z < x
              · simp [h3, h4] at hbc
              · have hxz : x = z := le_antisymm (le_of_not_lt h4) (le_of_not_lt h3)
                subst hxz
                simp only [lt_irrefl x, if_false] at hbc ⊢
                exact ih ys zs hab hbc

theorem mem_insertByNameDesc (e : FileEntry) :
    ∀ (l : List FileEntry) (x : FileEntry),
      x ∈ insertByNameDesc e l ↔ x = e ∨ x ∈ l := by
  intro l
  induction l with
  | nil => intro x; simp [insertByNameDesc]
  | cons f fs ih =>
    intro x
    simp only [insertByNameDesc]
    split
    · simp [List.mem_cons]
    · simp only [List.mem_cons, ih]
      tauto

theorem pairwise_insertByNameDesc (e : FileEntry) :
    ∀ l : List FileEntry,
      List.Pairwise (fun a b => lexLt a.name.data b.name.data = false) l →
      List.Pairwise (fun a b => lexLt a.name.data b.name.data = false) (insertByNameDesc e l) := by
  intro l
  induction l with
  | nil => intro _; simp [insertByNameDesc]
  | cons f fs ih =>
    intro hp
    rcases List.pairwise_cons.mp hp with ⟨hf, hfs⟩
    simp only [insertByNameDesc]
    split
    · rename_i hlt
      refine List.pairwise_cons.mpr ⟨?_, hp⟩
      intro b hb
      rcases List.mem_cons.mp hb with rfl | hb'
      · exact lexLt_asymm _ _ hlt
      · cases hx : lexLt e.name.data b.name.data with
        | false => rfl
        | true =>
          have h1 := lexLt_trans _ _ _ hlt hx
          rw [hf b hb'] at h1
          exact absurd h1 (by simp)
    · rename_i hnlt
      refine List.pairwise_cons.mpr ⟨?_, ih hfs⟩
      intro b hb
      rcases (mem_insertByNameDesc e fs b).mp hb with rfl | hb'
      · simpa using hnlt
      · exact hf b hb'

theorem pairwise_sortByNameDesc : ∀ l : List FileEntry,
    List.Pairwise (fun a b => lexLt a.name.data b.name.data = false) (sortByNameDesc l) := by
  intro l
  induction l with
  | nil => simp [sortByNameDesc]
  | cons e es ih => exact pairwise_insertByNameDesc e _ ih

theorem mem_sortByNameDesc : ∀ (l : List FileEntry) (x : FileEntry),
    x ∈ sortByNameDesc l ↔ x ∈ l := by
  intro l
  induction l with
  | nil => intro x; simp [sortByNameDesc]
  | cons e es ih =>
    intro x
    simp [sortByNameDesc, mem_insertByNameDesc, ih, List.mem_cons]

theorem length_insertByNameDesc (e : FileEntry) :
    ∀ l : List FileEntry, (insertByNameDesc e l).length = l.length + 1 := by
  intro l
  induction l with
  | nil => rfl
  | cons f fs ih =>
    simp only [insertByNameDesc]
    split
    · simp
    · simp [ih]

theorem length_sortByNameDesc : ∀ l : List FileEntry,
    (sortByNameDesc l).length = l.length := by
  intro l
  induction l with
  | nil => rfl
  | cons e es ih => simp [sortByNameDesc, length_insertByNameDesc, ih]

/-- Claim C6: for a target whose directory holds at least one collection
file, the loader consults exactly one file — the head of the descending
sort, which belongs to the directory and whose name is lexicographically
greatest — and the target's contribution is exactly the result of reading
that one entry (no other file is opened). -/
theorem claim_C6 (fs : FS) (rawTarget : String) (files : List FileEntry)
    (hname : (pyStripStr rawTarget).isEmpty = false)
    (hdir : fs.dirs (pyStripStr rawTarget) = some files)
    (hne : files ≠ []) :
    ∃ e rest, sortByNameDesc files = e :: rest ∧ e ∈ files ∧
      (∀ f ∈ files, lexLe f.name.data e.name.data = true) ∧
      processTarget fs rawTarget = readLatestFile (pyStripStr rawTarget) e := by
  cases hs : sortByNameDesc files with
  | nil =>
    have hlen := length_sortByNameDesc files
    rw [hs] at hlen
    exact absurd (List.eq_nil_of_length_eq_zero hlen.symm) hne
  | cons e rest =>
    refine ⟨e, rest, rfl, ?_, ?_, ?_⟩
    · exact (mem_sortByNameDesc files e).mp (hs ▸ List.mem_cons_self e rest)
    · intro f hf
      have hf' : f ∈ sortByNameDesc files := (mem_sortByNameDesc files f).mpr hf
      rw [hs] at hf'
      rcases List.mem_cons.mp hf' with rfl | hf''
      · simp [lexLe, lexLt_irrefl]
      · have hp := pairwise_sortByNameDesc files
        rw [hs] at hp
        have hrel := List.rel_of_pairwise_cons hp hf''
        simp [lexLe, hrel]
    · simp [processTarget, hname, hdir, hs]

/-- Witness for C6 at a concrete input: among the three files of
`filesBank` only "20250103.json" (the lexicographically greatest name) is
read; the malformed older file is never consulted. -/
theorem claim_C6_witness :
    processTarget fs3 "bank" = [tagTweet "bank" sampleTweet] := by
  obtain ⟨e, rest, hs, hmem, hmax, hproc⟩ :=
    claim_C6 fs3 "bank" filesBank (by decide) (by decide) (by decide)
  have hsort : sortByNameDesc filesBank =
      [⟨"20250103.json", FileContent.ok (some [sampleTweet])⟩,
       ⟨"20250102.json", FileContent.ok none⟩,
       ⟨"20250101.json", FileContent.malformed⟩] := by decide
  rw [hsort] at hs
  injection hs with h1 h2
  subst h1
  rw [hproc]
  decide

/-! ## Whitespace-strip algebra (for the fence-stripping claim) -/

theorem dropWhile_idem (p : Char → Bool) :
    ∀ l : List Char, List.dropWhile p (List.dropWhile p l) = List.dropWhile p l := by
  intro l
  induction l with
  | nil => rfl
  | cons a l ih =>
    by_cases h : p a
    · simp [List.dropWhile_cons, h, ih]
    · simp [List.dropWhile_cons, h]

theorem stripR_stripR (l : List Char) : stripR (stripR l) = stripR l := by
  simp [stripR, List.reverse_reverse, dropWhile_idem]

theorem stripL_of_stripR_self :
    ∀ a : List Char, stripR a = a → stripR (stripL a) = stripL a := by
  intro a
  induction a with
  | nil => intro _; rfl
  | cons x xs ih =>
    intro ha
    have ha' : List.dropWhile Char.isWhitespace (xs.reverse ++ [x]) = xs.reverse ++ [x] := by
      have h0 := congrArg List.reverse ha
      simp only [stripR, List.reverse_reverse, List.reverse_cons] at h0
      exact h0
    by_cases hx : Char.isWhitespace x
    · rw [List.dropWhile_append] at ha'
      by_cases hemp : (List.dropWhile Char.isWhitespace xs.reverse).isEmpty
      · exfalso
        rw [if_pos hemp] at ha'
        have hnil : List.dropWhile Char.isWhitespace [x] = [] := by
          simp [List.dropWhile_cons, hx]
        rw [hnil] at ha'
        simp at ha'
      · rw [if_neg hemp] at ha'
        have hxs' : List.dropWhile Char.isWhitespace xs.reverse = xs.reverse :=
          List.append_cancel_right ha'
        have hxs : stripR xs = xs := by
          unfold stripR
          rw [hxs', List.reverse_reverse]
        have hsl : stripL (x :: xs) = stripL xs := by
          simp [stripL, List.dropWhile_cons, hx]
        rw [hsl]
        exact ih hxs
    · have hsl : stripL (x :: xs) = x :: xs := by
        simp [stripL, List.dropWhile_cons, hx]
      rw [hsl]
      exact ha

theorem pyStrip_idem (l : List Char) : pyStrip (pyStrip l) = pyStrip l := by
  unfold pyStrip
  rw [stripL_of_stripR_self (stripR l) (stripR_stripR l)]
  simp [stripL, dropWhile_idem]

theorem stripL_append_keep (l1 q : List Char)
    (h : List.dropWhile Char.isWhitespace l1 = l1) (hne : l1 ≠ []) :
    stripL (l1 ++ q) = l1 ++ q := by
  have hemp : (List.dropWhile Char.isWhitespace l1).isEmpty = false := by
    rw [h]
    cases l1 with
    | nil => exact absurd rfl hne
    | cons a as => rfl
  unfold stripL
  rw [List.dropWhile_append, if_neg (by simp [hemp]), h]

theorem stripR_append_keep (q l2 : List Char)
    (h : List.dropWhile Char.isWhitespace l2.reverse = l2.reverse) (hne : l2 ≠ []) :
    stripR (q ++ l2) = q ++ l2 := by
  have hemp : (List.dropWhile Char.isWhitespace l2.reverse).isEmpty = false := by
    rw [h]
    cases hl : l2.reverse with
    | nil => exact absurd (by simpa using congrArg List.reverse hl) hne
    | cons a as => rfl
  unfold stripR
  rw [List.reverse_append, List.dropWhile_append, if_neg (by simp [hemp]), h]
  simp [List.reverse_append]

theorem hasPre_append_self : ∀ pat rest : List Char, hasPre pat (pat ++ rest) = true := by
  intro pat
  induction pat with
  | nil => intro rest; rfl
  | cons p ps ih => intro rest; simp [hasPre, ih]

theorem afterChar_of_absent (c : Char) :
    ∀ l1 q : List Char, (∀ x ∈ l1, x ≠ c) → afterChar c (l1 ++ c :: q) = some q := by
  intro l1
  induction l1 with
  | nil => intro q _; simp [afterChar]
  | cons a as ih =>
    intro q h
    have ha : a ≠ c := h a (List.mem_cons_self a as)
    simp only [List.cons_append, afterChar, ha, if_false]
    exact ih q (fun x hx => h x (List.mem_cons_of_mem a hx))

theorem afterFirst_self_append (pat rest : List Char) (hne : pat ≠ []) :
    afterFirst pat (pat ++ rest) = some rest := by
  cases pat with
  | nil => exact absurd rfl hne
  | cons p ps =>
    simp only [List.cons_append, afterFirst]
    rw [if_pos (show hasPre (p :: ps) (p :: ps.append rest) = true from
      hasPre_append_self (p :: ps) rest)]
    exact congrArg some (List.drop_left (p :: ps) rest)

theorem pyStrip_fenceWrapJson (p : List Char) :
    pyStrip (fenceWrapJson p) = fenceWrapJson p := by
  unfold pyStrip fenceWrapJson
  rw [stripR_append_keep (("```json\n").data ++ p) (("\n```").data) (by decide) (by decide)]
  rw [List.append_assoc]
  rw [stripL_append_keep (("```json\n").data) (p ++ ("\n```").data) (by decide) (by decide)]

theorem hasPre_fenceWrapJson (p : List Char) :
    hasPre fenceMarker (fenceWrapJson p) = true := by
  have hd : fenceWrapJson p = fenceMarker ++ (("json\n").data ++ (p ++ ("\n```").data)) := by
    unfold fenceWrapJson
    rw [show ("```json\n").data = fenceMarker ++ ("json\n").data from by decide]
    simp only [List.append_assoc]
  rw [hd]
  exact hasPre_append_self _ _

theorem afterChar_fenceWrapJson (p : List Char) :
    afterChar '\n' (fenceWrapJson p) = some (p ++ ("\n```").data) := by
  have hd : fenceWrapJson p = ("```json").data ++ ('\n' :: (p ++ ("\n```").data)) := by
    unfold fenceWrapJson
    rw [show ("```json\n").data = ("```json").data ++ ['\n'] from by decide]
    simp only [List.append_assoc, List.singleton_append, List.cons_append, List.nil_append]
  rw [hd]
  exact afterChar_of_absent '\n' _ _ (by decide)

theorem hasSuf_fenceTail (p : List Char) :
    hasSuf fenceMarker (p ++ ("\n```").data) = true := by
  unfold hasSuf
  rw [List.reverse_append,
    show ("\n```").data.reverse = fenceMarker ++ ['\n'] from by decide,
    show fenceMarker.reverse = fenceMarker from by decide,
    List.append_assoc]
  exact hasPre_append_self _ _

theorem beforeLast_fenceTail (p : List Char) :
    beforeLast fenceMarker (p ++ ("\n```").data) = p ++ ['\n'] := by
  unfold beforeLast
  rw [List.reverse_append,
    show ("\n```").data.reverse = fenceMarker ++ ['\n'] from by decide,
    show fenceMarker.reverse = fenceMarker from by decide,
    List.append_assoc,
    afterFirst_self_append fenceMarker _ (by decide)]
  simp

theorem stripR_append_nl (l : List Char) : stripR (l ++ ['\n']) = stripR l := by
  have hnw : Char.isWhitespace '\n' = true := by decide
  simp [stripR, List.reverse_append, List.dropWhile_cons, hnw]

theorem pyStrip_append_nl (l : List Char) : pyStrip (l ++ ['\n']) = pyStrip l := by
  unfold pyStrip
  rw [stripR_append_nl]

theorem stripFence_fenceWrapJson (p : List Char) :
    stripFence (fenceWrapJson p) = some (pyStrip p) := by
  simp only [stripFence]
  rw [pyStrip_fenceWrapJson, hasPre_fenceWrapJson, if_pos rfl, afterChar_fenceWrapJson]
  show some (pyStrip (if hasSuf fenceMarker (p ++ ("\n```").data) = true then
      beforeLast fenceMarker (p ++ ("\n```").data) else p ++ ("\n```").data)) =
    some (pyStrip p)
  rw [hasSuf_fenceTail, if_pos rfl, beforeLast_fenceTail, pyStrip_append_nl]

theorem stripFence_unfenced (p : List Char)
    (h1 : hasPre fenceMarker (pyStrip p) = false)
    (h2 : hasSuf fenceMarker (pyStrip p) = false) :
    stripFence p = some (pyStrip p) := by
  simp [stripFence, h1, h2, pyStrip_idem]

/-- Claim C4: any payload that — once whitespace-stripped — neither starts
nor ends with a fence marker (every valid JSON text is of this form) is
parsed identically with or without triple-backtick fencing and language
tag: the post-processing maps the fenced wrapping and the bare payload to
the same stripped string, it leaves an already-unfenced stripped payload
unchanged (idempotence, hence order preservation of the content), and the
analysis client therefore produces the same result for both responses. -/
theorem claim_C4 (p : List Char)
    (h1 : hasPre fenceMarker (pyStrip p) = false)
    (h2 : hasSuf fenceMarker (pyStrip p) = false) :
    stripFence (fenceWrapJson p) = stripFence p ∧
    stripFence p = some (pyStrip p) ∧
    stripFence (pyStrip p) = some (pyStrip p) ∧
    ∀ (tweets : List Tweet) (parseJson : List Char → Option Analysis),
      analyze_with_gpt tweets (LLMOutcome.httpResponse 200 (fenceWrapJson p)) parseJson =
        analyze_with_gpt tweets (LLMOutcome.httpResponse 200 p) parseJson := by
  have hu : stripFence p = some (pyStrip p) := stripFence_unfenced p h1 h2
  have hf : stripFence (fenceWrapJson p) = some (pyStrip p) := stripFence_fenceWrapJson p
  have hq : stripFence (pyStrip p) = some (pyStrip p) := by
    have hqq := stripFence_unfenced (pyStrip p) (by rwa [pyStrip_idem]) (by rwa [pyStrip_idem])
    rwa [pyStrip_idem] at hqq
  refine ⟨hf.trans hu.symm, hu, hq, ?_⟩
  intro tweets parseJson
  simp [analyze_with_gpt, hf, hu]

/-- Witness for C4 at a concrete input: the JSON payload text `[1, 2]`
fenced as a json code block strips to the same string as the bare payload. -/
theorem claim_C4_witness :
    stripFence (fenceWrapJson ("[1, 2]").data) = stripFence (("[1, 2]").data) ∧
    stripFence (("[1, 2]").data) = some (pyStrip (("[1, 2]").data)) := by
  have h := claim_C4 (("[1, 2]").data) (by decide) (by decide)
  exact ⟨h.1, h.2.1⟩

/-- Witness for C10 at a concrete input: with TARGETS unset the loader sees
the single empty entry of `"".split(",")`, loads nothing, and the run is the
clean exit even though credential, webhook and data files are all present. -/
theorem claim_C10_witness :
    load_latest_tweets fsOne (pyTargets none) = [] ∧
    mainRun (some "sk-key") (some "https://mm.example/hook") fsOne (pyTargets none)
      LLMOutcome.transportError (fun _ => none) "2025-01-02T09:00:00" =
      { exitCode := 0, llmCalled := false, webhookAttempted := false, record := none } :=
  claim_C10 none (some "sk-key") (some "https://mm.example/hook") fsOne
    LLMOutcome.transportError (fun _ => none) "2025-01-02T09:00:00" (by decide)
